import Mathlib

/-!
Verification of the Checkpoint access-layer / access-rule reconciliation modules.

This file shallowly embeds the decision logic of
`lib/ansible/modules/network/checkpoint/checkpoint_access_layer.py`,
`lib/ansible/modules/network/checkpoint/checkpoint_access_rule.py` and the
commit helpers of `lib/ansible/module_utils/network/checkpoint/checkpoint.py`.

Modelling conventions:
* `module.params` is modelled as a typed record of the option values of each
  module (argument parsing by `AnsibleModule` is an external collaborator).
* The transport (`Connection.send_request`) is external: an invocation is a
  pure function of the option record, the connection handle and an
  environment record holding the fetch response; the function returns the
  list of requests sent, in order, together with either the `exit_json`
  dictionary or the Python error that crashed the invocation.
* Machine-level detail that the modules depend on is kept: indexing
  `source[0]` on an empty list raises `IndexError`; calling a function whose
  body dereferences `connection.send_request` with an `AnsibleModule` bound
  to `connection` raises `AttributeError`; subscripting the parsed params
  dict with a key that no argument spec declares raises `KeyError`.
-/

namespace Checkpoint

/-- JSON-like values appearing in request payloads and result dictionaries. -/
inductive PVal where
  | vnone : PVal
  | vstr : String → PVal
  | vbool : Bool → PVal
  | vstrlist : List String → PVal
deriving DecidableEq, Repr

/-- One request on the Web Services API: endpoint path plus JSON payload,
as handed to `connection.send_request`. -/
structure Request where
  endpoint : String
  payload : List (String × PVal)
deriving DecidableEq, Repr

/-- Python runtime errors that the embedded code can raise. -/
inductive PyError where
  | attributeError : PyError
  | indexError : PyError
  | keyError : PyError
deriving DecidableEq, Repr

/-- The connection handle: `get_sid()` is used by `publish`,
`get_session_uid()` by the layer module when building its result. -/
structure Conn where
  sid : String
  session_uid : String
deriving DecidableEq, Repr

/-- Result of one module invocation: the requests sent, in order, and either
the `exit_json` dictionary or the Python error that crashed the run. -/
structure RunResult where
  trace : List Request
  result : Except PyError (List (String × PVal))

/-- The `exit_json` dictionary of a run that terminated normally
(empty for a crashed run). -/
def RunResult.dict (r : RunResult) : List (String × PVal) :=
  match r.result with
  | Except.ok d => d
  | Except.error _ => []

/-- Whether the invocation crashed with a Python error. -/
def RunResult.crashed (r : RunResult) : Bool :=
  match r.result with
  | Except.ok _ => false
  | Except.error _ => true

/-- The Python error of a crashed invocation, if any. -/
def RunResult.crashError (r : RunResult) : Option PyError :=
  match r.result with
  | Except.ok _ => Option.none
  | Except.error e => some e

/-- Convert an optional string parameter to its JSON payload value
(Python `None` becomes JSON null). -/
def optStr : Option String → PVal
  | Option.none => PVal.vnone
  | some s => PVal.vstr s

/-- Convert an optional string-list parameter to its JSON payload value. -/
def optStrList : Option (List String) → PVal
  | Option.none => PVal.vnone
  | some l => PVal.vstrlist l

/-- Python `!=` between a possibly-`None` module parameter and a remote
string: `None` compares unequal to every string. -/
def pyNeStr (a : Option String) (b : String) : Bool :=
  match a with
  | Option.none => true
  | some v => v != b

/-- One reconciliation decision, labelling the branch taken by `main`. -/
inductive ChangeDecision where
  | NoAction : ChangeDecision
  | Create : ChangeDecision
  | NoChange : ChangeDecision
  | Update : ChangeDecision
  | Delete : ChangeDecision
deriving DecidableEq, Repr, BEq

/-! ## Commit helpers, from module_utils checkpoint.py -/

/-- Request sent by `publish(connection, uid=None)` of checkpoint.py when
called with only a real connection: payload uid is `connection.get_sid()`. -/
def publish_request (conn : Conn) : Request :=
  ⟨"/web_api/publish", [("uid", PVal.vstr conn.sid)]⟩

/-- Request sent by `install_policy(connection, policy_package, targets)` of
checkpoint.py. -/
def install_policy_request (policy_package : String) (targets : Option (List String)) : Request :=
  ⟨"/web_api/install-policy",
   [("policy-package", PVal.vstr policy_package),
    ("targets", optStrList targets)]⟩

/-! ## Access layer module -/

/-- Option values of checkpoint_access_layer.py: its own options
(name, enable_firewall_blade, shared, state) plus the options of
`checkpoint_argument_spec` (auto_publish_session, policy_package,
auto_install_policy). Argument parsing itself is external to the core.
There is no targets field: the DOCUMENTATION string mentions a targets
option, but neither the module argument_spec nor checkpoint_argument_spec
declares it, so the parsed params dict has no targets key. -/
structure LayerParams where
  name : String
  enable_firewall_blade : Bool
  shared : Bool
  state : String
  auto_publish_session : Bool
  auto_install_policy : Bool
  policy_package : String
deriving DecidableEq, Repr

/-- Remote access-layer object as returned by show-access-layer, restricted
to the fields the module reads or writes. -/
structure AccessLayerRemote where
  firewall : Bool
  shared : Bool
deriving DecidableEq, Repr

/-- Environment of one layer invocation: response code and body of the
fetch, and the body returned by whichever mutating request is sent. -/
structure LayerEnv where
  fetchCode : Nat
  fetchRemote : AccessLayerRemote
  mutResponse : PVal
deriving DecidableEq, Repr

/-- Request sent by `get_access_layer`. -/
def get_access_layer_request (p : LayerParams) : Request :=
  ⟨"/web_api/show-access-layer", [("name", PVal.vstr p.name)]⟩

/-- Request sent by `create_access_layer`. -/
def create_access_layer_request (p : LayerParams) : Request :=
  ⟨"/web_api/add-access-layer",
   [("name", PVal.vstr p.name),
    ("firewall", PVal.vbool p.enable_firewall_blade),
    ("shared", PVal.vbool p.shared)]⟩

/-- Request sent by `update_access_layer`. -/
def update_access_layer_request (p : LayerParams) : Request :=
  ⟨"/web_api/set-access-layer",
   [("name", PVal.vstr p.name),
    ("firewall", PVal.vbool p.enable_firewall_blade),
    ("shared", PVal.vbool p.shared)]⟩

/-- Request sent by `delete_access_layer`. -/
def delete_access_layer_request (p : LayerParams) : Request :=
  ⟨"/web_api/delete-access-layer", [("name", PVal.vstr p.name)]⟩

/-- needs_update of checkpoint_access_layer.py, verbatim: note that the
first comparison tests `enable_firewall_blade` against the remote `shared`
field, since both source comparisons read the remote shared entry. -/
def layer_needs_update (p : LayerParams) (access_layer : AccessLayerRemote) : Bool :=
  let res := false
  let res := if p.enable_firewall_blade != access_layer.shared then true else res
  let res := if p.shared != access_layer.shared then true else res
  res

/-- Requests sent by the commit block of the layer module after a
mutation: publish when auto_publish_session is set. No install-policy
request is ever sent: when auto_install_policy is also set, the block
evaluates the targets entry of module.params as an argument of
install_policy, but targets is declared neither in the module argument_spec
nor in checkpoint_argument_spec, so the subscript raises KeyError before
install_policy runs. -/
def layer_commit (p : LayerParams) (conn : Conn) : List Request :=
  if p.auto_publish_session then [publish_request conn] else []

/-- Error raised by the commit block of the layer module: the KeyError on
the undeclared targets option, hit exactly when both commit flags are set
(their defaults), after the publish request and before exit_json. -/
def layer_commit_error (p : LayerParams) : Option PyError :=
  if p.auto_publish_session then
    if p.auto_install_policy then some PyError.keyError else Option.none
  else Option.none

/-- main of checkpoint_access_layer.py: fetch, branch on state and fetch
code, optionally mutate and commit, and build the `exit_json` dictionary.
A fetch code other than 200 and 404 falls through every branch, so nothing
is mutated and the module exits with changed false. On every mutation path
the commit block runs before the result assignments, so when it raises the
KeyError on the undeclared targets option (both commit flags set), the run
crashes after the publish request and exit_json is never reached. -/
def checkpoint_access_layer_main (p : LayerParams) (conn : Conn) (env : LayerEnv) : RunResult :=
  let showReq := get_access_layer_request p
  let sessionUid := ("checkpoint_session_uid", PVal.vstr conn.session_uid)
  if p.state = "present" then
    if env.fetchCode = 200 then
      if layer_needs_update p env.fetchRemote then
        ⟨showReq :: update_access_layer_request p :: layer_commit p conn,
         match layer_commit_error p with
         | some e => Except.error e
         | Option.none =>
           Except.ok [("changed", PVal.vbool true),
                      ("checkpoint_access_layers", env.mutResponse), sessionUid]⟩
      else
        ⟨[showReq], Except.ok [("changed", PVal.vbool false), sessionUid]⟩
    else if env.fetchCode = 404 then
      ⟨showReq :: create_access_layer_request p :: layer_commit p conn,
       match layer_commit_error p with
       | some e => Except.error e
       | Option.none =>
         Except.ok [("changed", PVal.vbool true),
                    ("checkpoint_access_layers", env.mutResponse), sessionUid]⟩
    else
      ⟨[showReq], Except.ok [("changed", PVal.vbool false), sessionUid]⟩
  else
    if env.fetchCode = 200 then
      ⟨showReq :: delete_access_layer_request p :: layer_commit p conn,
       match layer_commit_error p with
       | some e => Except.error e
       | Option.none => Except.ok [("changed", PVal.vbool true), sessionUid]⟩
    else
      ⟨[showReq], Except.ok [("changed", PVal.vbool false), sessionUid]⟩

/-- The decision taken by the layer module, labelling the branch of `main`:
present/200 compares via `layer_needs_update`, present/404 creates,
absent/200 deletes; the fall-through branches perform no action. -/
def layer_decide (p : LayerParams) (env : LayerEnv) : ChangeDecision :=
  if p.state = "present" then
    if env.fetchCode = 200 then
      if layer_needs_update p env.fetchRemote then ChangeDecision.Update
      else ChangeDecision.NoChange
    else if env.fetchCode = 404 then ChangeDecision.Create
    else ChangeDecision.NoAction
  else
    if env.fetchCode = 200 then ChangeDecision.Delete
    else ChangeDecision.NoAction

/-! ## Access rule module -/

/-- Option values of checkpoint_access_rule.py: its argument_spec declares
name, layer, position, source, destination, action, enabled and state
(no commit options). -/
structure RuleParams where
  name : String
  layer : String
  position : String
  source : Option String
  destination : Option String
  action : Option String
  enabled : Bool
  state : String
deriving DecidableEq, Repr

/-- A referenced object inside a remote rule, compared by its name field. -/
structure NamedRef where
  name : String
deriving DecidableEq, Repr

/-- Remote access-rule object as returned by show-access-rule: source and
destination are lists of references, action a single reference, plus the
enabled flag; `extra` holds any remote-only fields the module never reads. -/
structure AccessRuleRemote where
  source : List NamedRef
  destination : List NamedRef
  action : NamedRef
  enabled : Bool
  extra : List (String × PVal)
deriving DecidableEq, Repr

/-- Environment of one rule invocation: response code and body of the fetch. -/
structure RuleEnv where
  fetchCode : Nat
  fetchRemote : AccessRuleRemote
deriving DecidableEq, Repr

/-- Request sent by `get_access_rule`. -/
def get_access_rule_request (q : RuleParams) : Request :=
  ⟨"/web_api/show-access-rule",
   [("name", PVal.vstr q.name), ("layer", PVal.vstr q.layer)]⟩

/-- Request sent by `create_access_rule`: note the payload carries name,
layer, position, source, destination and action but not enabled. -/
def create_access_rule_request (q : RuleParams) : Request :=
  ⟨"/web_api/add-access-rule",
   [("name", PVal.vstr q.name),
    ("layer", PVal.vstr q.layer),
    ("position", PVal.vstr q.position),
    ("source", optStr q.source),
    ("destination", optStr q.destination),
    ("action", optStr q.action)]⟩

/-- Request sent by `update_access_rule`: the create payload plus enabled. -/
def update_access_rule_request (q : RuleParams) : Request :=
  ⟨"/web_api/set-access-rule",
   [("name", PVal.vstr q.name),
    ("layer", PVal.vstr q.layer),
    ("position", PVal.vstr q.position),
    ("source", optStr q.source),
    ("destination", optStr q.destination),
    ("action", optStr q.action),
    ("enabled", PVal.vbool q.enabled)]⟩

/-- Request sent by `delete_access_rule`. -/
def delete_access_rule_request (q : RuleParams) : Request :=
  ⟨"/web_api/delete-access-rule",
   [("name", PVal.vstr q.name), ("layer", PVal.vstr q.layer)]⟩

/-- needs_update of checkpoint_access_rule.py: each declared desired field
is compared with Python `!=` against the remote projection, source and
destination through the name field of their element 0 (an IndexError on an
empty list), action through its name field, enabled directly. -/
def rule_needs_update (q : RuleParams) (access_rule : AccessRuleRemote) : Except PyError Bool :=
  match access_rule.source.head?, access_rule.destination.head? with
  | some s0, some d0 =>
    let res := false
    let res := if pyNeStr q.source s0.name then true else res
    let res := if pyNeStr q.destination d0.name then true else res
    let res := if pyNeStr q.action access_rule.action.name then true else res
    let res := if q.enabled != access_rule.enabled then true else res
    Except.ok res
  | _, _ => Except.error PyError.indexError

/-- main of checkpoint_access_rule.py. Two source facts shape this model:
the fetch branch for state present reads `if code == 200: ... else:`, so any
non-200 fetch code (404 or otherwise) takes the create branch; and after
each mutating request the module calls `publish(module, connection)` with
the arguments swapped relative to the signature
`publish(connection, uid=None)` in checkpoint.py, so inside `publish` the
name `connection` is bound to the AnsibleModule object, which has no
send_request attribute, and the call raises AttributeError before any
publish request is sent (install_policy is never reached and exit_json is
never called on mutation paths). -/
def checkpoint_access_rule_main (q : RuleParams) (env : RuleEnv) : RunResult :=
  let showReq := get_access_rule_request q
  if q.state = "present" then
    if env.fetchCode = 200 then
      match rule_needs_update q env.fetchRemote with
      | Except.error e => ⟨[showReq], Except.error e⟩
      | Except.ok true =>
          ⟨[showReq, update_access_rule_request q], Except.error PyError.attributeError⟩
      | Except.ok false => ⟨[showReq], Except.ok [("changed", PVal.vbool false)]⟩
    else
      ⟨[showReq, create_access_rule_request q], Except.error PyError.attributeError⟩
  else
    if env.fetchCode = 200 then
      ⟨[showReq, delete_access_rule_request q], Except.error PyError.attributeError⟩
    else
      ⟨[showReq], Except.ok [("changed", PVal.vbool false)]⟩

/-- The decision taken by the rule module, labelling the branch of `main`:
for state present any non-200 fetch code takes the create branch (the source
reads `else`, not `elif code == 404`); propagates the IndexError that
`rule_needs_update` can raise. -/
def rule_decide (q : RuleParams) (env : RuleEnv) : Except PyError ChangeDecision :=
  if q.state = "present" then
    if env.fetchCode = 200 then
      (rule_needs_update q env.fetchRemote).map
        (fun b => if b then ChangeDecision.Update else ChangeDecision.NoChange)
    else Except.ok ChangeDecision.Create
  else
    if env.fetchCode = 200 then Except.ok ChangeDecision.Delete
    else Except.ok ChangeDecision.NoAction

/-! ## Request classification -/

/-- The mutating endpoints of the two modules. -/
def mutatingEndpoints : List String :=
  ["/web_api/add-access-layer", "/web_api/set-access-layer", "/web_api/delete-access-layer",
   "/web_api/add-access-rule", "/web_api/set-access-rule", "/web_api/delete-access-rule"]

/-- Whether a request mutates remote state (add, set or delete). -/
def isMutatingRequest (r : Request) : Bool :=
  mutatingEndpoints.contains r.endpoint

/-- Whether a request is a fetch (show) request. -/
def isFetchRequest (r : Request) : Bool :=
  r.endpoint == "/web_api/show-access-layer" || r.endpoint == "/web_api/show-access-rule"

/-- Whether a request is a commit-phase request (publish or install-policy). -/
def isCommitRequest (r : Request) : Bool :=
  r.endpoint == "/web_api/publish" || r.endpoint == "/web_api/install-policy"

/-- Whether a decision mutates remote state. -/
def isMutatingDecision (d : ChangeDecision) : Bool :=
  [ChangeDecision.Create, ChangeDecision.Update, ChangeDecision.Delete].contains d

/-! ## Environment model for idempotence

The remote device applies each mutating layer request to its stored object:
add-access-layer and set-access-layer store the firewall and shared payload
fields, delete-access-layer removes the object; other endpoints leave the
object unchanged.  A subsequent fetch returns 200 with the stored object
when it exists and 404 otherwise. -/

/-- Effect of one request on the stored access-layer object. -/
def layer_apply_request (s : Option AccessLayerRemote) (r : Request) : Option AccessLayerRemote :=
  if r.endpoint = "/web_api/add-access-layer" ∨ r.endpoint = "/web_api/set-access-layer" then
    match r.payload.lookup "firewall", r.payload.lookup "shared" with
    | some (PVal.vbool f), some (PVal.vbool sh) => some ⟨f, sh⟩
    | _, _ => s
  else if r.endpoint = "/web_api/delete-access-layer" then
    Option.none
  else
    s

/-- Run the layer module once against a stored remote object: the fetch
returns 200 with the object when present and 404 otherwise. -/
def layer_run_against (p : LayerParams) (conn : Conn) (s : Option AccessLayerRemote) : RunResult :=
  checkpoint_access_layer_main p conn
    { fetchCode := match s with | some _ => 200 | Option.none => 404
    , fetchRemote := s.getD ⟨false, false⟩
    , mutResponse := PVal.vnone }

/-- The stored remote object after one run of the layer module. -/
def layer_remote_after (p : LayerParams) (conn : Conn) (s : Option AccessLayerRemote) : Option AccessLayerRemote :=
  (layer_run_against p conn s).trace.foldl layer_apply_request s

/-! ## Field tables -/

/-- Desired-field keys of the layer module, as sent on the wire: name,
firewall (carrying enable_firewall_blade) and shared. -/
def layer_desired_field_keys : List String := ["name", "firewall", "shared"]

/-- Desired-field keys of the rule module: the argument_spec entries of
checkpoint_access_rule.py other than state, which is the requested
existence rather than a field of the object. -/
def rule_desired_field_keys : List String :=
  ["name", "layer", "position", "source", "destination", "action", "enabled"]

deriving instance DecidableEq for Except

/-! ## Concrete inputs used by the claim theorems -/

/-- A connection handle with distinct session strings. -/
def conn0 : Conn := ⟨"SID-1", "UID-1"⟩

/-- Desired layer state whose declared fields all equal the remote object
`c1_env.fetchRemote`. -/
def c1_params : LayerParams :=
  { name := "layer1", enable_firewall_blade := true, shared := false, state := "present",
    auto_publish_session := true, auto_install_policy := true,
    policy_package := "standard" }

/-- Fetch environment for C1: found, remote firewall true and shared false. -/
def c1_env : LayerEnv := ⟨200, ⟨true, false⟩, PVal.vnone⟩

/-- Desired layer state whose firewall flag differs from the remote
firewall field of `c1_env_b`. -/
def c1_params_b : LayerParams :=
  { c1_params with enable_firewall_blade := false }

/-- Fetch environment with remote firewall true, shared false. -/
def c1_env_b : LayerEnv := ⟨200, ⟨true, false⟩, PVal.vnone⟩

/-- Desired rule for the C2 run. -/
def c2_params : RuleParams :=
  ⟨"rule2", "Network", "top", some "attacker", some "Any", some "Drop", true, "present"⟩

/-- Fetch environment for C2: rule not found. -/
def c2_env : RuleEnv := ⟨404, ⟨[], [], ⟨"Drop"⟩, true, []⟩⟩

/-- Desired rule for the C3 counterexample run. -/
def c3_params : RuleParams :=
  ⟨"rule3", "Network", "top", some "src3", some "Any", some "Drop", true, "present"⟩

/-- Fetch environment for C3: a server-error response code. -/
def c3_env : RuleEnv := ⟨500, ⟨[], [], ⟨"Drop"⟩, true, []⟩⟩

/-- Layer parameters used to instantiate the C3 amended theorem. -/
def c3w_p : LayerParams :=
  { name := "layer3", enable_firewall_blade := true, shared := true, state := "present",
    auto_publish_session := true, auto_install_policy := true,
    policy_package := "standard" }

/-- Layer fetch environment with a server-error code. -/
def c3w_env : LayerEnv := ⟨503, ⟨true, true⟩, PVal.vnone⟩

/-- Layer fetch environment taking the create-and-commit path. -/
def c3w_env2 : LayerEnv := ⟨404, ⟨true, true⟩, PVal.vnone⟩

/-- Rule fetch environment taking the update path. -/
def c3w_envR2 : RuleEnv := ⟨200, ⟨[⟨"other"⟩], [⟨"Any"⟩], ⟨"Drop"⟩, true, []⟩⟩

/-- Desired layer state for the idempotence run: firewall flag and shared
flag differ from each other. -/
def c4_params : LayerParams :=
  { name := "layer4", enable_firewall_blade := true, shared := false, state := "present",
    auto_publish_session := false, auto_install_policy := true,
    policy_package := "standard" }

/-- Initial stored remote layer for the idempotence run: identical to the
desired state of `c4_params`. -/
def c4_remote0 : Option AccessLayerRemote := some ⟨true, false⟩

/-- Remote rule of the field-sensitive update example of the spec. -/
def c5_remote : AccessRuleRemote := ⟨[⟨"A"⟩], [⟨"Any"⟩], ⟨"Drop"⟩, true, []⟩

/-- Desired rule differing from `c5_remote` only in source. -/
def c5_desired_mismatch : RuleParams :=
  ⟨"rule5", "Network", "top", some "B", some "Any", some "Drop", true, "present"⟩

/-- Desired rule identical to `c5_remote` under name-projection. -/
def c5_desired_match : RuleParams :=
  ⟨"rule5", "Network", "top", some "A", some "Any", some "Drop", true, "present"⟩

/-- Layer parameters whose declared fields match `c6w_env.fetchRemote`
under the comparison the module actually performs. -/
def c6w_p : LayerParams :=
  { name := "layer6", enable_firewall_blade := false, shared := false, state := "present",
    auto_publish_session := true, auto_install_policy := true,
    policy_package := "standard" }

/-- Fetch environment for the C6 witness: found and matching. -/
def c6w_env : LayerEnv := ⟨200, ⟨false, false⟩, PVal.vnone⟩

/-- Desired rule matching `c6w_envR.fetchRemote`. -/
def c6w_q : RuleParams :=
  ⟨"rule6", "Network", "top", some "A", some "Any", some "Drop", true, "present"⟩

/-- Fetch environment for the C6 witness: found and matching. -/
def c6w_envR : RuleEnv := ⟨200, ⟨[⟨"A"⟩], [⟨"Any"⟩], ⟨"Drop"⟩, true, []⟩⟩

/-- Desired rule with enabled false, used for the C7 counterexample. -/
def c7_params : RuleParams :=
  ⟨"rule7", "Network", "top", some "src7", some "Any", some "Drop", false, "present"⟩

/-- Fetch environment for the C7 witness: rule not found, so the decision
is Create. -/
def c7w_envR : RuleEnv := ⟨404, ⟨[], [], ⟨"Drop"⟩, true, []⟩⟩

/-- Layer parameters used to instantiate the C7 amended theorem. -/
def c7w_p : LayerParams :=
  { name := "layer7", enable_firewall_blade := true, shared := true, state := "absent",
    auto_publish_session := true, auto_install_policy := false,
    policy_package := "standard" }

/-- Layer fetch environment for the C7 witness: found, so the decision is
Delete. -/
def c7w_env : LayerEnv := ⟨200, ⟨true, true⟩, PVal.vnone⟩

/-- Remote rule for the C8 counterexample. -/
def c8_remote : AccessRuleRemote := ⟨[⟨"A"⟩], [⟨"Any"⟩], ⟨"Drop"⟩, true, []⟩

/-- Desired rule leaving source unset while destination, action and enabled
all match `c8_remote`. -/
def c8_desired_unset_source : RuleParams :=
  ⟨"rule8", "Network", "top", Option.none, some "Any", some "Drop", true, "present"⟩

/-- Desired rule used to instantiate the C8 amended theorem. -/
def c8w_q : RuleParams :=
  ⟨"rule8w", "Network", "top", Option.none, some "Any", some "Drop", true, "present"⟩

/-- Remote rule used to instantiate the C8 amended theorem. -/
def c8w_r : AccessRuleRemote :=
  ⟨[⟨"A"⟩], [⟨"Any"⟩], ⟨"Drop"⟩, true, [("position", PVal.vstr "1")]⟩

/-- Desired rule matching `c9_env.fetchRemote`, so the run reports a no-op
outcome. -/
def c9_desired : RuleParams :=
  ⟨"rule9", "Network", "top", some "A", some "Any", some "Drop", true, "present"⟩

/-- Fetch environment for C9: found and matching. -/
def c9_env : RuleEnv := ⟨200, ⟨[⟨"A"⟩], [⟨"Any"⟩], ⟨"Drop"⟩, true, []⟩⟩

/-- Layer parameters used to instantiate the C9 amended theorem: commit
flags publish-only, so the create run reports an outcome. -/
def c9w_p : LayerParams :=
  { name := "layer9", enable_firewall_blade := true, shared := false, state := "present",
    auto_publish_session := true, auto_install_policy := false,
    policy_package := "standard" }

/-- Layer parameters with both commit flags set (the defaults), whose
mutation runs crash with the KeyError on the undeclared targets option. -/
def c9w_p2 : LayerParams :=
  { name := "layer9b", enable_firewall_blade := true, shared := false, state := "present",
    auto_publish_session := true, auto_install_policy := true,
    policy_package := "standard" }

/-- Layer fetch environment for the C9 witness: not found, so the run
creates and reports the new object. -/
def c9w_env : LayerEnv := ⟨404, ⟨false, false⟩, PVal.vstr "created-layer"⟩

/-- The exit_json dictionary reported by the C9 witness layer run. -/
def c9w_oL : List (String × PVal) :=
  [("changed", PVal.vbool true),
   ("checkpoint_access_layers", PVal.vstr "created-layer"),
   ("checkpoint_session_uid", PVal.vstr "UID-1")]

/-! ## Helper lemmas: request classification of each builder -/

theorem endpoint_show_layer (p : LayerParams) :
    (get_access_layer_request p).endpoint = "/web_api/show-access-layer" := rfl

theorem endpoint_add_layer (p : LayerParams) :
    (create_access_layer_request p).endpoint = "/web_api/add-access-layer" := rfl

theorem endpoint_set_layer (p : LayerParams) :
    (update_access_layer_request p).endpoint = "/web_api/set-access-layer" := rfl

theorem endpoint_delete_layer (p : LayerParams) :
    (delete_access_layer_request p).endpoint = "/web_api/delete-access-layer" := rfl

theorem endpoint_show_rule (q : RuleParams) :
    (get_access_rule_request q).endpoint = "/web_api/show-access-rule" := rfl

theorem endpoint_add_rule (q : RuleParams) :
    (create_access_rule_request q).endpoint = "/web_api/add-access-rule" := rfl

theorem endpoint_set_rule (q : RuleParams) :
    (update_access_rule_request q).endpoint = "/web_api/set-access-rule" := rfl

theorem endpoint_delete_rule (q : RuleParams) :
    (delete_access_rule_request q).endpoint = "/web_api/delete-access-rule" := rfl

theorem endpoint_publish (conn : Conn) :
    (publish_request conn).endpoint = "/web_api/publish" := rfl

theorem endpoint_install (pp : String) (t : Option (List String)) :
    (install_policy_request pp t).endpoint = "/web_api/install-policy" := rfl

theorem class_show_layer (p : LayerParams) :
    isFetchRequest (get_access_layer_request p) = true ∧
    isMutatingRequest (get_access_layer_request p) = false ∧
    isCommitRequest (get_access_layer_request p) = false := ⟨rfl, rfl, rfl⟩

theorem class_add_layer (p : LayerParams) :
    isFetchRequest (create_access_layer_request p) = false ∧
    isMutatingRequest (create_access_layer_request p) = true ∧
    isCommitRequest (create_access_layer_request p) = false := ⟨rfl, rfl, rfl⟩

theorem class_set_layer (p : LayerParams) :
    isFetchRequest (update_access_layer_request p) = false ∧
    isMutatingRequest (update_access_layer_request p) = true ∧
    isCommitRequest (update_access_layer_request p) = false := ⟨rfl, rfl, rfl⟩

theorem class_delete_layer (p : LayerParams) :
    isFetchRequest (delete_access_layer_request p) = false ∧
    isMutatingRequest (delete_access_layer_request p) = true ∧
    isCommitRequest (delete_access_layer_request p) = false := ⟨rfl, rfl, rfl⟩

theorem class_show_rule (q : RuleParams) :
    isFetchRequest (get_access_rule_request q) = true ∧
    isMutatingRequest (get_access_rule_request q) = false ∧
    isCommitRequest (get_access_rule_request q) = false := ⟨rfl, rfl, rfl⟩

theorem class_add_rule (q : RuleParams) :
    isFetchRequest (create_access_rule_request q) = false ∧
    isMutatingRequest (create_access_rule_request q) = true ∧
    isCommitRequest (create_access_rule_request q) = false := ⟨rfl, rfl, rfl⟩

theorem class_set_rule (q : RuleParams) :
    isFetchRequest (update_access_rule_request q) = false ∧
    isMutatingRequest (update_access_rule_request q) = true ∧
    isCommitRequest (update_access_rule_request q) = false := ⟨rfl, rfl, rfl⟩

theorem class_delete_rule (q : RuleParams) :
    isFetchRequest (delete_access_rule_request q) = false ∧
    isMutatingRequest (delete_access_rule_request q) = true ∧
    isCommitRequest (delete_access_rule_request q) = false := ⟨rfl, rfl, rfl⟩

theorem class_publish (conn : Conn) :
    isFetchRequest (publish_request conn) = false ∧
    isMutatingRequest (publish_request conn) = false ∧
    isCommitRequest (publish_request conn) = true := ⟨rfl, rfl, rfl⟩

theorem class_install (pp : String) (t : Option (List String)) :
    isFetchRequest (install_policy_request pp t) = false ∧
    isMutatingRequest (install_policy_request pp t) = false ∧
    isCommitRequest (install_policy_request pp t) = true := ⟨rfl, rfl, rfl⟩

theorem ni_show_layer (p : LayerParams) :
    ((get_access_layer_request p).endpoint != "/web_api/install-policy") = true := rfl

theorem ni_add_layer (p : LayerParams) :
    ((create_access_layer_request p).endpoint != "/web_api/install-policy") = true := rfl

theorem ni_set_layer (p : LayerParams) :
    ((update_access_layer_request p).endpoint != "/web_api/install-policy") = true := rfl

theorem ni_delete_layer (p : LayerParams) :
    ((delete_access_layer_request p).endpoint != "/web_api/install-policy") = true := rfl

theorem ni_publish (conn : Conn) :
    ((publish_request conn).endpoint != "/web_api/install-policy") = true := rfl

/-- No-op invocations of the layer module send only the fetch request and
exit with changed false: when the decision is NoChange or NoAction, the
trace is the single show request and the result is the changed-false
dictionary with the session uid. -/
theorem layer_noop_trace (p : LayerParams) (conn : Conn) (env : LayerEnv)
    (hL : layer_decide p env = ChangeDecision.NoChange ∨
          layer_decide p env = ChangeDecision.NoAction) :
    (checkpoint_access_layer_main p conn env).trace = [get_access_layer_request p] ∧
    (checkpoint_access_layer_main p conn env).result
      = Except.ok [("changed", PVal.vbool false),
                   ("checkpoint_session_uid", PVal.vstr conn.session_uid)] := by
  unfold layer_decide at hL
  unfold checkpoint_access_layer_main
  by_cases hs : p.state = "present" <;> by_cases h2 : env.fetchCode = 200 <;>
    by_cases h4 : env.fetchCode = 404 <;>
    by_cases hu : layer_needs_update p env.fetchRemote <;>
    simp_all

/-- No-op invocations of the rule module send only the fetch request and
exit with changed false. -/
theorem rule_noop_trace (q : RuleParams) (envR : RuleEnv)
    (hR : rule_decide q envR = Except.ok ChangeDecision.NoChange ∨
          rule_decide q envR = Except.ok ChangeDecision.NoAction) :
    (checkpoint_access_rule_main q envR).trace = [get_access_rule_request q] ∧
    (checkpoint_access_rule_main q envR).result
      = Except.ok [("changed", PVal.vbool false)] := by
  unfold rule_decide at hR
  unfold checkpoint_access_rule_main
  by_cases hs : q.state = "present"
  · by_cases h2 : envR.fetchCode = 200
    · cases hnu : rule_needs_update q envR.fetchRemote with
      | error e => rw [hnu] at hR; simp [hs, h2, Except.map] at hR
      | ok b =>
        cases b
        · simp [hs, h2]
        · rw [hnu] at hR; simp [hs, h2, Except.map] at hR
    · simp [hs, h2] at hR
  · by_cases h2 : envR.fetchCode = 200
    · simp [hs, h2] at hR
    · simp [hs, h2]

/-! ## Claim theorems -/

/-- C1: the claim states that for a found access layer under
requestedExistence present, the decision is NoChange exactly when desired
enable_firewall_blade equals the remote firewall field and desired shared
equals the remote shared field. The code instead compares
enable_firewall_blade against the remote shared field, so it decides Update
on `c1_params`/`c1_env` although both declared desired fields equal the
corresponding remote fields, and decides NoChange on
`c1_params_b`/`c1_env_b` although the firewall flag differs from the remote
firewall field. -/
theorem c1_layer_field_comparison_bug :
    (layer_decide c1_params c1_env = ChangeDecision.Update ∧
     c1_params.enable_firewall_blade = c1_env.fetchRemote.firewall ∧
     c1_params.shared = c1_env.fetchRemote.shared) ∧
    (layer_decide c1_params_b c1_env_b = ChangeDecision.NoChange ∧
     c1_params_b.enable_firewall_blade ≠ c1_env_b.fetchRemote.firewall) := by
  decide

/-- C2: the claim states that a mutation under autoPublish and
autoInstallPolicy invokes publish strictly before install-policy. In the
rule module a mutation occurs (the add-access-rule request is sent), yet the
invocation crashes with AttributeError, because `publish(module, connection)`
swaps the arguments of `publish(connection, uid=None)`, and no publish or
install-policy request is ever issued. -/
theorem c2_rule_commit_crashes_before_publish :
    (checkpoint_access_rule_main c2_params c2_env).trace
      = [get_access_rule_request c2_params, create_access_rule_request c2_params] ∧
    (checkpoint_access_rule_main c2_params c2_env).trace.countP isMutatingRequest = 1 ∧
    (checkpoint_access_rule_main c2_params c2_env).crashError = some PyError.attributeError ∧
    (checkpoint_access_rule_main c2_params c2_env).trace.all
      (fun r => !(isCommitRequest r)) = true := by
  decide

/-- C3 counterexample: a fetch returning 500 with state present in the rule
module is not fatal and not propagated: the module takes the create branch
and issues the mutating add-access-rule request, contrary to the claim that
no mutating request is issued after such a response. -/
theorem c3_counterexample_500_fetch_issues_create :
    c3_env.fetchCode ≠ 200 ∧ c3_env.fetchCode ≠ 404 ∧
    (checkpoint_access_rule_main c3_params c3_env).trace.countP isMutatingRequest = 1 ∧
    (checkpoint_access_rule_main c3_params c3_env).trace
      = [get_access_rule_request c3_params, create_access_rule_request c3_params] := by
  decide

/-- C3 amended: no request is ever retried (every trace lists each endpoint
at most once), but a fetch code that is neither 200 nor 404 is not fatal:
the layer module sends nothing further and exits with changed false, while
the rule module with state present treats it as not-found and issues the
create request. -/
theorem c3_amended_no_retry_and_fault_behavior
    (p : LayerParams) (conn : Conn) (env : LayerEnv)
    (q : RuleParams) (envR : RuleEnv)
    (p2 : LayerParams) (conn2 : Conn) (env2 : LayerEnv)
    (q2 : RuleParams) (envR2 : RuleEnv)
    (hL : env.fetchCode ≠ 200 ∧ env.fetchCode ≠ 404)
    (hR : envR.fetchCode ≠ 200 ∧ envR.fetchCode ≠ 404)
    (hq : q.state = "present") :
    (checkpoint_access_layer_main p conn env).trace = [get_access_layer_request p] ∧
    (checkpoint_access_layer_main p conn env).dict.lookup "changed"
      = some (PVal.vbool false) ∧
    (checkpoint_access_rule_main q envR).trace
      = [get_access_rule_request q, create_access_rule_request q] ∧
    ((checkpoint_access_layer_main p2 conn2 env2).trace.map Request.endpoint).Nodup ∧
    ((checkpoint_access_rule_main q2 envR2).trace.map Request.endpoint).Nodup := by
  have hdec : layer_decide p env = ChangeDecision.NoAction := by
    unfold layer_decide
    by_cases hs : p.state = "present" <;> simp [hs, hL.1, hL.2]
  obtain ⟨htL, hrL⟩ := layer_noop_trace p conn env (Or.inr hdec)
  refine ⟨htL, ?_, ?_, ?_, ?_⟩
  · simp [RunResult.dict, hrL, List.lookup]
  · unfold checkpoint_access_rule_main
    simp [hq, hR.1]
  · unfold checkpoint_access_layer_main layer_commit
    by_cases h1 : p2.state = "present" <;> by_cases h2 : env2.fetchCode = 200 <;>
      by_cases h3 : env2.fetchCode = 404 <;>
      by_cases h4 : layer_needs_update p2 env2.fetchRemote <;>
      by_cases h5 : p2.auto_publish_session <;>
      by_cases h6 : p2.auto_install_policy <;>
      simp [h1, h2, h3, h4, h5, h6, get_access_layer_request, update_access_layer_request,
        create_access_layer_request, delete_access_layer_request, publish_request]
  · unfold checkpoint_access_rule_main
    by_cases h1 : q2.state = "present" <;> by_cases h2 : envR2.fetchCode = 200 <;>
      simp [h1, h2, get_access_rule_request, update_access_rule_request,
        create_access_rule_request, delete_access_rule_request]
    cases hnu : rule_needs_update q2 envR2.fetchRemote with
    | error e => simp
    | ok b => cases b <;> simp

/-- C3 amended, instantiated: the layer run on a 503 fetch and the rule run
on a 500 fetch behave as the amended claim states, and the create-path
layer trace and update-path rule trace are retry-free. -/
theorem c3_amended_no_retry_witness :
    ((c3w_env.fetchCode ≠ 200 ∧ c3w_env.fetchCode ≠ 404) ∧
     (c3_env.fetchCode ≠ 200 ∧ c3_env.fetchCode ≠ 404) ∧
     c3_params.state = "present") ∧
    ((checkpoint_access_layer_main c3w_p conn0 c3w_env).trace
        = [get_access_layer_request c3w_p] ∧
     (checkpoint_access_layer_main c3w_p conn0 c3w_env).dict.lookup "changed"
        = some (PVal.vbool false) ∧
     (checkpoint_access_rule_main c3_params c3_env).trace
        = [get_access_rule_request c3_params, create_access_rule_request c3_params] ∧
     ((checkpoint_access_layer_main c3w_p conn0 c3w_env2).trace.map Request.endpoint).Nodup ∧
     ((checkpoint_access_rule_main c3_params c3w_envR2).trace.map Request.endpoint).Nodup) :=
  ⟨⟨by decide, by decide, rfl⟩,
   c3_amended_no_retry_and_fault_behavior c3w_p conn0 c3w_env c3_params c3_env
     c3w_p conn0 c3w_env2 c3_params c3w_envR2 (by decide) (by decide) rfl⟩

/-- C4: the claim states that a second reconcile run against the remote
state produced by the first run reports changed false and issues no
mutating request. On `c4_params` with initial remote `c4_remote0`, whose
fields equal the desired fields, the second run still reports changed true
and issues one mutating set-access-layer request, because
`layer_needs_update` compares enable_firewall_blade against the remote
shared field. -/
theorem c4_second_run_reports_change :
    ((layer_run_against c4_params conn0
        (layer_remote_after c4_params conn0 c4_remote0)).dict.lookup "changed"
      = some (PVal.vbool true)) ∧
    (layer_run_against c4_params conn0
        (layer_remote_after c4_params conn0 c4_remote0)).trace.countP isMutatingRequest = 1 ∧
    c4_params.enable_firewall_blade = (c4_remote0.getD ⟨false, false⟩).firewall ∧
    c4_params.shared = (c4_remote0.getD ⟨false, false⟩).shared := by
  decide

/-- C5: on the remote rule of the spec example, a desired rule whose source
is B while destination, action and enabled match decides Update, and a
desired rule identical to the remote rule under name-projection decides
NoChange. -/
theorem c5_field_sensitive_update :
    rule_decide c5_desired_mismatch ⟨200, c5_remote⟩ = Except.ok ChangeDecision.Update ∧
    rule_decide c5_desired_match ⟨200, c5_remote⟩ = Except.ok ChangeDecision.NoChange := by
  decide

/-- C6: when the decision is NoChange or NoAction, neither module sends a
publish or install-policy request, whatever the configuration flags, and
the reported outcome has changed false. -/
theorem c6_noop_suppresses_commit (p : LayerParams) (conn : Conn) (env : LayerEnv)
    (q : RuleParams) (envR : RuleEnv)
    (hL : layer_decide p env = ChangeDecision.NoChange ∨
          layer_decide p env = ChangeDecision.NoAction)
    (hR : rule_decide q envR = Except.ok ChangeDecision.NoChange ∨
          rule_decide q envR = Except.ok ChangeDecision.NoAction) :
    (checkpoint_access_layer_main p conn env).trace.all
      (fun r => !(isCommitRequest r)) = true ∧
    (checkpoint_access_layer_main p conn env).dict.lookup "changed"
      = some (PVal.vbool false) ∧
    (checkpoint_access_rule_main q envR).trace.all
      (fun r => !(isCommitRequest r)) = true ∧
    (checkpoint_access_rule_main q envR).dict.lookup "changed"
      = some (PVal.vbool false) := by
  obtain ⟨htL, hrL⟩ := layer_noop_trace p conn env hL
  obtain ⟨htR, hrR⟩ := rule_noop_trace q envR hR
  refine ⟨?_, ?_, ?_, ?_⟩
  · rw [htL]; rfl
  · simp [RunResult.dict, hrL, List.lookup]
  · rw [htR]; rfl
  · simp [RunResult.dict, hrR, List.lookup]

/-- C6, instantiated: a matching layer and a matching rule under both
commit flags send no publish or install-policy request and report changed
false. -/
theorem c6_noop_suppresses_commit_witness :
    (layer_decide c6w_p c6w_env = ChangeDecision.NoChange ∨
     layer_decide c6w_p c6w_env = ChangeDecision.NoAction) ∧
    (rule_decide c6w_q c6w_envR = Except.ok ChangeDecision.NoChange ∨
     rule_decide c6w_q c6w_envR = Except.ok ChangeDecision.NoAction) ∧
    ((checkpoint_access_layer_main c6w_p conn0 c6w_env).trace.all
       (fun r => !(isCommitRequest r)) = true ∧
     (checkpoint_access_layer_main c6w_p conn0 c6w_env).dict.lookup "changed"
       = some (PVal.vbool false) ∧
     (checkpoint_access_rule_main c6w_q c6w_envR).trace.all
       (fun r => !(isCommitRequest r)) = true ∧
     (checkpoint_access_rule_main c6w_q c6w_envR).dict.lookup "changed"
       = some (PVal.vbool false)) :=
  ⟨by decide, by decide,
   c6_noop_suppresses_commit c6w_p conn0 c6w_env c6w_q c6w_envR (by decide) (by decide)⟩

/-- C7 counterexample: enabled is a declared desired field of the rule
module, yet the add-access-rule payload does not contain it, so the add
payload does not carry the full desired-field set for the object kind. -/
theorem c7_counterexample_add_rule_payload_omits_enabled :
    "enabled" ∈ rule_desired_field_keys ∧
    "enabled" ∉ (create_access_rule_request c7_params).payload.map Prod.fst := by
  decide

/-- C7 amended: each run issues exactly one mutating request for a Create,
Update or Delete decision and none for NoChange or NoAction; the layer add
and set payloads and the rule set payload carry the full desired-field set;
the rule add payload carries every desired field except enabled; delete
payloads carry exactly the identity fields. -/
theorem c7_amended_single_mutation_and_payload_projection
    (p : LayerParams) (conn : Conn) (env : LayerEnv)
    (q : RuleParams) (envR : RuleEnv) (d : ChangeDecision)
    (h : rule_decide q envR = Except.ok d) :
    (checkpoint_access_layer_main p conn env).trace.countP isMutatingRequest
      = (if isMutatingDecision (layer_decide p env) then 1 else 0) ∧
    (checkpoint_access_rule_main q envR).trace.countP isMutatingRequest
      = (if isMutatingDecision d then 1 else 0) ∧
    (create_access_layer_request p).payload.map Prod.fst = layer_desired_field_keys ∧
    (update_access_layer_request p).payload.map Prod.fst = layer_desired_field_keys ∧
    (delete_access_layer_request p).payload.map Prod.fst = ["name"] ∧
    (create_access_rule_request q).payload.map Prod.fst
      = ["name", "layer", "position", "source", "destination", "action"] ∧
    (update_access_rule_request q).payload.map Prod.fst = rule_desired_field_keys ∧
    (delete_access_rule_request q).payload.map Prod.fst = ["name", "layer"] := by
  refine ⟨?_, ?_, rfl, rfl, rfl, rfl, rfl, rfl⟩
  · unfold checkpoint_access_layer_main layer_commit layer_commit_error layer_decide
    by_cases h1 : p.state = "present" <;> by_cases h2 : env.fetchCode = 200 <;>
      by_cases h3 : env.fetchCode = 404 <;>
      by_cases h4 : layer_needs_update p env.fetchRemote <;>
      by_cases h5 : p.auto_publish_session <;>
      by_cases h6 : p.auto_install_policy <;>
      simp [h1, h2, h3, h4, h5, h6, List.countP_cons, List.countP_nil,
        (class_show_layer p).2.1, (class_add_layer p).2.1, (class_set_layer p).2.1,
        (class_delete_layer p).2.1, (class_publish conn).2.1,
        isMutatingDecision] <;> decide
  · unfold rule_decide at h
    unfold checkpoint_access_rule_main
    by_cases h1 : q.state = "present" <;> by_cases h2 : envR.fetchCode = 200
    · cases hnu : rule_needs_update q envR.fetchRemote with
      | error e => rw [hnu] at h; simp [h1, h2, Except.map] at h
      | ok b =>
        rw [hnu] at h
        cases b
        · simp [h1, h2, Except.map] at h
          subst h
          simp [h1, h2, hnu, List.countP_cons, List.countP_nil,
            (class_show_rule q).2.1, isMutatingDecision]; decide
        · simp [h1, h2, Except.map] at h
          subst h
          simp [h1, h2, hnu, List.countP_cons, List.countP_nil,
            (class_show_rule q).2.1, (class_set_rule q).2.1, isMutatingDecision]; decide
    · simp [h1, h2] at h
      subst h
      simp [h1, h2, List.countP_cons, List.countP_nil,
        (class_show_rule q).2.1, (class_add_rule q).2.1, isMutatingDecision]; decide
    · simp [h1, h2] at h
      subst h
      simp [h1, h2, List.countP_cons, List.countP_nil,
        (class_show_rule q).2.1, (class_delete_rule q).2.1, isMutatingDecision]; decide
    · simp [h1, h2] at h
      subst h
      simp [h1, h2, List.countP_cons, List.countP_nil,
        (class_show_rule q).2.1, isMutatingDecision]; decide

/-- C7 amended, instantiated at a layer delete and a rule create. -/
theorem c7_amended_single_mutation_witness :
    rule_decide c7_params c7w_envR = Except.ok ChangeDecision.Create ∧
    ((checkpoint_access_layer_main c7w_p conn0 c7w_env).trace.countP isMutatingRequest
       = (if isMutatingDecision (layer_decide c7w_p c7w_env) then 1 else 0) ∧
     (checkpoint_access_rule_main c7_params c7w_envR).trace.countP isMutatingRequest
       = (if isMutatingDecision ChangeDecision.Create then 1 else 0) ∧
     (create_access_layer_request c7w_p).payload.map Prod.fst = layer_desired_field_keys ∧
     (update_access_layer_request c7w_p).payload.map Prod.fst = layer_desired_field_keys ∧
     (delete_access_layer_request c7w_p).payload.map Prod.fst = ["name"] ∧
     (create_access_rule_request c7_params).payload.map Prod.fst
       = ["name", "layer", "position", "source", "destination", "action"] ∧
     (update_access_rule_request c7_params).payload.map Prod.fst = rule_desired_field_keys ∧
     (delete_access_rule_request c7_params).payload.map Prod.fst = ["name", "layer"]) :=
  ⟨by decide,
   c7_amended_single_mutation_and_payload_projection c7w_p conn0 c7w_env c7_params c7w_envR
     ChangeDecision.Create (by decide)⟩

/-- C8 counterexample: a desired rule that leaves source unset while
destination, action and enabled match the remote rule is still decided
Update, on account of the unset source alone, contrary to the claim. -/
theorem c8_counterexample_unset_source_forces_update :
    c8_desired_unset_source.source = Option.none ∧
    pyNeStr c8_desired_unset_source.destination "Any" = false ∧
    pyNeStr c8_desired_unset_source.action "Drop" = false ∧
    c8_desired_unset_source.enabled = c8_remote.enabled ∧
    rule_needs_update c8_desired_unset_source c8_remote = Except.ok true ∧
    rule_decide c8_desired_unset_source ⟨200, c8_remote⟩
      = Except.ok ChangeDecision.Update := by
  decide

/-- C8 amended: the comparison is asymmetric in that only the four declared
desired fields are checked and remote-only fields are ignored
(needs_update is unchanged under any change of the extra remote fields),
but a desired source left unset is still compared and never equals the
remote name, so it forces Update. -/
theorem c8_amended_asymmetric_comparison (q : RuleParams) (r : AccessRuleRemote)
    (extra2 : List (String × PVal)) (s0 d0 : NamedRef) (rest rest2 : List NamedRef)
    (hs : r.source = s0 :: rest) (hd : r.destination = d0 :: rest2) :
    rule_needs_update q { r with extra := extra2 } = rule_needs_update q r ∧
    (q.source = Option.none → rule_needs_update q r = Except.ok true) := by
  constructor
  · rfl
  · intro hq
    unfold rule_needs_update
    simp [hs, hd, hq, pyNeStr, ite_self]

/-- C8 amended, instantiated at an unset-source desired rule and a remote
rule with a remote-only position field. -/
theorem c8_amended_asymmetric_comparison_witness :
    c8w_r.source = ⟨"A"⟩ :: [] ∧ c8w_r.destination = ⟨"Any"⟩ :: [] ∧
    (rule_needs_update c8w_q { c8w_r with extra := [] } = rule_needs_update c8w_q c8w_r ∧
     (c8w_q.source = Option.none → rule_needs_update c8w_q c8w_r = Except.ok true)) :=
  ⟨rfl, rfl,
   c8_amended_asymmetric_comparison c8w_q c8w_r [] ⟨"A"⟩ ⟨"Any"⟩ [] [] rfl rfl⟩

/-- C9 counterexample: a rule invocation that reports an outcome (here a
found, matching rule) reports only the changed flag: the outcome carries no
session identifier, contrary to the claim that every outcome contains one. -/
theorem c9_counterexample_rule_outcome_lacks_session_id :
    (checkpoint_access_rule_main c9_desired c9_env).crashed = false ∧
    ((checkpoint_access_rule_main c9_desired c9_env).dict.lookup "changed").isSome = true ∧
    (checkpoint_access_rule_main c9_desired c9_env).dict.lookup "checkpoint_session_uid"
      = Option.none := by
  decide

/-- C9 amended: a layer invocation that reports an outcome reports the
changed flag, the session identifier, and the checkpoint_access_layers
payload exactly for Create and Update (omitted for Delete and no-ops); a
reporting layer run is never a mutation with both commit flags set, since
those runs raise the KeyError on the undeclared targets option after the
publish request and never reach exit_json; the layer module never sends an
install-policy request at all and its only crash mode is that KeyError; a
rule invocation that reports an outcome reports exactly the changed flag,
with no session identifier (the rule mutation paths crash at the commit
step before reporting). -/
theorem c9_amended_outcome_report_fields (p : LayerParams) (conn : Conn) (env : LayerEnv)
    (q : RuleParams) (envR : RuleEnv) (oL o : List (String × PVal))
    (p2 : LayerParams) (conn2 : Conn) (env2 : LayerEnv)
    (hL : (checkpoint_access_layer_main p conn env).result = Except.ok oL)
    (hR : (checkpoint_access_rule_main q envR).result = Except.ok o) :
    (oL.lookup "changed").isSome = true ∧
    oL.lookup "checkpoint_session_uid" = some (PVal.vstr conn.session_uid) ∧
    ((oL.lookup "checkpoint_access_layers").isSome
      = [ChangeDecision.Create, ChangeDecision.Update].contains (layer_decide p env)) ∧
    (p.auto_publish_session && p.auto_install_policy
       && isMutatingDecision (layer_decide p env)) = false ∧
    (checkpoint_access_layer_main p2 conn2 env2).trace.all
      (fun r => r.endpoint != "/web_api/install-policy") = true ∧
    ((checkpoint_access_layer_main p2 conn2 env2).crashError = Option.none ∨
     (checkpoint_access_layer_main p2 conn2 env2).crashError = some PyError.keyError) ∧
    o = [("changed", PVal.vbool false)] := by
  have hLay : (oL.lookup "changed").isSome = true ∧
      oL.lookup "checkpoint_session_uid" = some (PVal.vstr conn.session_uid) ∧
      ((oL.lookup "checkpoint_access_layers").isSome
        = [ChangeDecision.Create, ChangeDecision.Update].contains (layer_decide p env)) ∧
      (p.auto_publish_session && p.auto_install_policy
         && isMutatingDecision (layer_decide p env)) = false := by
    unfold checkpoint_access_layer_main layer_commit_error at hL
    unfold layer_decide
    by_cases h1 : p.state = "present" <;> by_cases h2 : env.fetchCode = 200 <;>
      by_cases h3 : env.fetchCode = 404 <;>
      by_cases h4 : layer_needs_update p env.fetchRemote <;>
      by_cases h5 : p.auto_publish_session <;>
      by_cases h6 : p.auto_install_policy <;>
      simp [h1, h2, h3, h4, h5, h6] at hL <;>
      subst hL <;>
      simp [h1, h2, h3, h4, h5, h6, List.lookup, isMutatingDecision] <;>
      decide
  have hP2 : (checkpoint_access_layer_main p2 conn2 env2).trace.all
        (fun r => r.endpoint != "/web_api/install-policy") = true ∧
      ((checkpoint_access_layer_main p2 conn2 env2).crashError = Option.none ∨
       (checkpoint_access_layer_main p2 conn2 env2).crashError = some PyError.keyError) := by
    unfold checkpoint_access_layer_main layer_commit layer_commit_error
    by_cases h1 : p2.state = "present" <;> by_cases h2 : env2.fetchCode = 200 <;>
      by_cases h3 : env2.fetchCode = 404 <;>
      by_cases h4 : layer_needs_update p2 env2.fetchRemote <;>
      by_cases h5 : p2.auto_publish_session <;>
      by_cases h6 : p2.auto_install_policy <;>
      simp [h1, h2, h3, h4, h5, h6, RunResult.crashError, List.all_cons, List.all_nil,
        ni_show_layer, ni_add_layer, ni_set_layer, ni_delete_layer, ni_publish]
  have hRule : o = [("changed", PVal.vbool false)] := by
    unfold checkpoint_access_rule_main at hR
    by_cases hs : q.state = "present"
    · by_cases h2 : envR.fetchCode = 200
      · cases hnu : rule_needs_update q envR.fetchRemote with
        | error e => rw [hnu] at hR; simp [hs, h2] at hR
        | ok b =>
          rw [hnu] at hR
          cases b
          · simp [hs, h2] at hR
            exact hR.symm
          · simp [hs, h2] at hR
      · simp [hs, h2] at hR
    · by_cases h2 : envR.fetchCode = 200
      · simp [hs, h2] at hR
      · simp [hs, h2] at hR
        exact hR.symm
  exact ⟨hLay.1, hLay.2.1, hLay.2.2.1, hLay.2.2.2, hP2.1, hP2.2, hRule⟩

/-- C9 amended, instantiated at a reporting layer create run (publish-only
commit flags), a both-flags layer run, and a rule no-op. -/
theorem c9_amended_outcome_report_witness :
    (checkpoint_access_layer_main c9w_p conn0 c9w_env).result = Except.ok c9w_oL ∧
    (checkpoint_access_rule_main c9_desired c9_env).result
      = Except.ok [("changed", PVal.vbool false)] ∧
    ((c9w_oL.lookup "changed").isSome = true ∧
     c9w_oL.lookup "checkpoint_session_uid" = some (PVal.vstr conn0.session_uid) ∧
     ((c9w_oL.lookup "checkpoint_access_layers").isSome
       = [ChangeDecision.Create, ChangeDecision.Update].contains
           (layer_decide c9w_p c9w_env)) ∧
     (c9w_p.auto_publish_session && c9w_p.auto_install_policy
        && isMutatingDecision (layer_decide c9w_p c9w_env)) = false ∧
     (checkpoint_access_layer_main c9w_p2 conn0 c9w_env).trace.all
       (fun r => r.endpoint != "/web_api/install-policy") = true ∧
     ((checkpoint_access_layer_main c9w_p2 conn0 c9w_env).crashError = Option.none ∨
      (checkpoint_access_layer_main c9w_p2 conn0 c9w_env).crashError
        = some PyError.keyError) ∧
     [("changed", PVal.vbool false)] = [("changed", PVal.vbool false)]) :=
  ⟨by decide, by decide,
   c9_amended_outcome_report_fields c9w_p conn0 c9w_env c9_desired c9_env
     c9w_oL [("changed", PVal.vbool false)] c9w_p2 conn0 c9w_env
     (by decide) (by decide)⟩

/-- C10: every invocation of either module sends exactly one fetch request,
the fetch is the first request of the trace, and at most one mutating
request is sent. -/
theorem c10_single_fetch_first_and_at_most_one_mutation
    (p : LayerParams) (conn : Conn) (env : LayerEnv)
    (q : RuleParams) (envR : RuleEnv) :
    (checkpoint_access_layer_main p conn env).trace.countP isFetchRequest = 1 ∧
    (checkpoint_access_layer_main p conn env).trace.head?
      = some (get_access_layer_request p) ∧
    (checkpoint_access_layer_main p conn env).trace.countP isMutatingRequest ≤ 1 ∧
    (checkpoint_access_rule_main q envR).trace.countP isFetchRequest = 1 ∧
    (checkpoint_access_rule_main q envR).trace.head?
      = some (get_access_rule_request q) ∧
    (checkpoint_access_rule_main q envR).trace.countP isMutatingRequest ≤ 1 := by
  have hl : (checkpoint_access_layer_main p conn env).trace.countP isFetchRequest = 1 ∧
      (checkpoint_access_layer_main p conn env).trace.head?
        = some (get_access_layer_request p) ∧
      (checkpoint_access_layer_main p conn env).trace.countP isMutatingRequest ≤ 1 := by
    unfold checkpoint_access_layer_main layer_commit
    by_cases h1 : p.state = "present" <;> by_cases h2 : env.fetchCode = 200 <;>
      by_cases h3 : env.fetchCode = 404 <;>
      by_cases h4 : layer_needs_update p env.fetchRemote <;>
      by_cases h5 : p.auto_publish_session <;>
      by_cases h6 : p.auto_install_policy <;>
      simp [h1, h2, h3, h4, h5, h6, List.countP_cons, List.countP_nil,
        (class_show_layer p).1, (class_show_layer p).2.1,
        (class_add_layer p).1, (class_add_layer p).2.1,
        (class_set_layer p).1, (class_set_layer p).2.1,
        (class_delete_layer p).1, (class_delete_layer p).2.1,
        (class_publish conn).1, (class_publish conn).2.1]
  have hr : (checkpoint_access_rule_main q envR).trace.countP isFetchRequest = 1 ∧
      (checkpoint_access_rule_main q envR).trace.head?
        = some (get_access_rule_request q) ∧
      (checkpoint_access_rule_main q envR).trace.countP isMutatingRequest ≤ 1 := by
    unfold checkpoint_access_rule_main
    by_cases h1 : q.state = "present" <;> by_cases h2 : envR.fetchCode = 200 <;>
      simp [h1, h2, List.countP_cons, List.countP_nil,
        (class_show_rule q).1, (class_show_rule q).2.1,
        (class_add_rule q).1, (class_add_rule q).2.1,
        (class_set_rule q).1, (class_set_rule q).2.1,
        (class_delete_rule q).1, (class_delete_rule q).2.1]
    cases hnu : rule_needs_update q envR.fetchRemote with
    | error e =>
      simp [List.countP_cons, List.countP_nil,
        (class_show_rule q).1, (class_show_rule q).2.1]
    | ok b =>
      cases b <;>
        simp [List.countP_cons, List.countP_nil,
          (class_show_rule q).1, (class_show_rule q).2.1,
          (class_set_rule q).1, (class_set_rule q).2.1]
  exact ⟨hl.1, hl.2.1, hl.2.2, hr.1, hr.2.1, hr.2.2⟩

end Checkpoint
